import Mathlib

/-!
Shallow embedding of `videotest.py` (class `SendBrowserApp`): the session
gate (`__start_event` / `__app_error`, `on_joined`), the image-normalisation
pipeline of `send_frames` (PIL `resize` / `convert` / `tobytes`), the frame
pump loop of `send_frames`, and the teardown sequence of `leave`.

Machine reals (Python floats) are modelled as `Rat`; Python exceptions as
`Except String`; the two external collaborators (Selenium screenshot source,
Daily camera sink) as oracles indexed by the iteration number.
-/

namespace Videotest

/-- State shared between the controlling thread and the worker thread:
`__app_error` (set in `on_joined`, line 263) and whether `__start_event`
has been set.  Initial values come from lines 254 and 256 of the source. -/
structure AppState where
  app_error : Option String
  start_event_set : Bool
deriving DecidableEq

/-- Initial state: `self.__app_error = None` (line 254) and a fresh,
unset `threading.Event` (line 256). -/
def initAppState : AppState :=
  { app_error := none, start_event_set := false }

/-- The join-completion callback `on_joined(data, error)` (lines 260-264):
if `error` is truthy it is stored in `__app_error`, and then, in every case,
`__start_event.set()` is called. -/
def on_joined (error : Option String) (s : AppState) : AppState :=
  let s1 := if error.isSome then { s with app_error := error } else s
  { s1 with start_event_set := true }

/-- The gate read performed by the worker: `__start_event.wait()` at line 288
followed by the read of `__app_error` at line 290.  Returns `none` when the
wait would block (event not yet set), and `some e` where `e` is the stored
session outcome once the event is set. -/
def await_ready (s : AppState) : Option (Option String) :=
  if s.start_event_set then some s.app_error else none

/-- A primitive memory operation performed by `on_joined`: either the store
`self.__app_error = error` (line 263) or `self.__start_event.set()`
(line 264). -/
inductive JoinOp where
  | storeError (e : String)
  | setEvent
deriving DecidableEq

/-- The sequence of primitive operations executed by `on_joined(data, error)`,
in source order: the conditional store of line 263 first, then the event set
of line 264. -/
def on_joined_ops (error : Option String) : List JoinOp :=
  (match error with
   | some e => [JoinOp.storeError e]
   | none => []) ++ [JoinOp.setEvent]

/-- Effect of one primitive operation on the shared state. -/
def applyOp (op : JoinOp) (s : AppState) : AppState :=
  match op with
  | JoinOp.storeError e => { s with app_error := some e }
  | JoinOp.setEvent => { s with start_event_set := true }

/-- Execute a sequence of primitive operations in order. -/
def runOps (ops : List JoinOp) (s : AppState) : AppState :=
  ops.foldl (fun s op => applyOp op s) s

/-! ## The PIL image model (external library interface used at lines 302-313) -/

/-- PIL colour modes relevant to decoded screenshots: `RGB`, `RGBA`
(PNG with alpha), `L` (grayscale), `P` (palette). -/
inductive ImageMode where
  | RGB
  | RGBA
  | L
  | P
deriving DecidableEq

/-- Number of bytes one pixel contributes to `tobytes()` in a given mode. -/
def ImageMode.channels : ImageMode → Nat
  | ImageMode.RGB => 3
  | ImageMode.RGBA => 4
  | ImageMode.L => 1
  | ImageMode.P => 1

/-- One pixel.  For `RGB`/`RGBA` the fields are the four channels; for `L`
the luminance is held in `r`; for `P` the palette index is held in `r`. -/
structure Pixel where
  r : Nat
  g : Nat
  b : Nat
  a : Nat
deriving DecidableEq

/-- A decoded PIL image: dimensions, mode, a total pixel grid, and the
palette used when `mode = P`. -/
structure PILImage where
  width : Nat
  height : Nat
  mode : ImageMode
  px : Nat → Nat → Pixel
  palette : Nat → Pixel

/-- PIL resampling filters; line 306 of the source passes
`Image.Resampling.LANCZOS`. -/
inductive Resampling where
  | LANCZOS
  | NEAREST
  | BILINEAR
deriving DecidableEq

/-- Models the external `PIL.Image.resize((tw, th), filter)`: the result has
the requested target dimensions and the same mode; pixel values are produced
by the selected filter from the source grid (the exact resampling kernel
belongs to the external PIL library, so it is abstracted here by grid
sampling; which filter was requested is recorded by the caller). -/
def PILImage.resize (img : PILImage) (tw th : Nat) (_f : Resampling) : PILImage :=
  { img with
    width := tw
    height := th
    px := fun x y => img.px (x * img.width / max tw 1) (y * img.height / max th 1) }

/-- Models the external `PIL.Image.convert("RGB")`: drops alpha, expands
grayscale, resolves palette indices; dimensions are unchanged and the
resulting mode is always `RGB`. -/
def PILImage.convertRGB (img : PILImage) : PILImage :=
  match img.mode with
  | ImageMode.RGB => img
  | ImageMode.RGBA =>
      { img with
        mode := ImageMode.RGB
        px := fun x y =>
          let p := img.px x y
          { r := p.r, g := p.g, b := p.b, a := 255 } }
  | ImageMode.L =>
      { img with
        mode := ImageMode.RGB
        px := fun x y =>
          let p := img.px x y
          { r := p.r, g := p.r, b := p.r, a := 255 } }
  | ImageMode.P =>
      { img with
        mode := ImageMode.RGB
        px := fun x y => img.palette (img.px x y).r }

/-- Bytes contributed by one pixel to `tobytes()`, by mode. -/
def serializePixel : ImageMode → Pixel → List Nat
  | ImageMode.RGB, p => [p.r, p.g, p.b]
  | ImageMode.RGBA, p => [p.r, p.g, p.b, p.a]
  | ImageMode.L, p => [p.r]
  | ImageMode.P, p => [p.r]

/-- Bytes of the pixels `(0, y) .. (w-1, y)` of row `y`, left to right. -/
def serializeRow (m : ImageMode) (px : Nat → Nat → Pixel) (y : Nat) : Nat → List Nat
  | 0 => []
  | Nat.succ x => serializeRow m px y x ++ serializePixel m (px x y)

/-- Bytes of the rows `0 .. h-1`, top to bottom. -/
def serializeRows (m : ImageMode) (px : Nat → Nat → Pixel) (w : Nat) : Nat → List Nat
  | 0 => []
  | Nat.succ y => serializeRows m px w y ++ serializeRow m px y w

/-- Models `image.tobytes()` (line 313): the row-major serialisation of the
pixel grid, `mode.channels` bytes per pixel. -/
def PILImage.tobytes (img : PILImage) : List Nat :=
  serializeRows img.mode img.px img.width img.height

/-- Events recorded while normalising: a resize with the given filter
(line 306) or a colour conversion to RGB (line 310). -/
inductive NormEvent where
  | resized (f : Resampling)
  | converted
deriving DecidableEq

/-- Lines 305-310 of `send_frames`: resize to `(w, h)` with `LANCZOS` when
`image.size != (self.__width, self.__height)`, then `convert("RGB")` when
`image.mode != "RGB"`.  Returns the final image and the log of operations
performed. -/
def normalizeImage (img : PILImage) (w h : Nat) : PILImage × List NormEvent :=
  let step1 : PILImage × List NormEvent :=
    if (img.width, img.height) ≠ (w, h) then
      (img.resize w h Resampling.LANCZOS, [NormEvent.resized Resampling.LANCZOS])
    else
      (img, [])
  if step1.1.mode ≠ ImageMode.RGB then
    (step1.1.convertRGB, step1.2 ++ [NormEvent.converted])
  else
    (step1.1, step1.2)

/-- Lines 305-313 of `send_frames`: normalise a decoded capture to the
camera dimensions and serialise it with `tobytes()`. -/
def normalize (img : PILImage) (w h : Nat) : List Nat × List NormEvent :=
  ((normalizeImage img w h).1.tobytes, (normalizeImage img w h).2)

/-! ## The frame pump (`send_frames`, lines 287-319) -/

/-- Line 294: `sleep_time = 1.0 / self.__framerate`.  Python raises
`ZeroDivisionError` when the integer framerate is zero; otherwise the
division yields `1 / framerate`. -/
def computeSleepTime (framerate : Int) : Except String Rat :=
  if framerate = 0 then Except.error "ZeroDivisionError: float division by zero"
  else Except.ok (1 / (framerate : Rat))

/-- The duration actually slept at the end of an iteration: line 319 is
`time.sleep(sleep_time)` with the fixed `sleep_time`; the code never
measures the elapsed processing time, so the argument `_elapsed`
(wall-clock duration of capture+normalize+write) is ignored. -/
def codeSleepDuration (interval _elapsed : Rat) : Rat := interval

/-- Modelled from the spec: the sleep duration the specification prescribes
for an iteration, `max(0, interval - (now - t0))` where `now - t0` is the
elapsed processing time of the iteration. -/
def specSleepDuration (interval elapsed : Rat) : Rat := max 0 (interval - elapsed)

/-- Observable events of one pump run: a caught capture/decode failure
(logged at line 317), a completed `write_frame` call with the bytes written
(line 314), and a completed `time.sleep` of the given duration (line 319). -/
inductive PumpEvent where
  | captureError (i : Nat)
  | wrote (i : Nat) (frame : List Nat)
  | slept (i : Nat) (d : Rat)
deriving DecidableEq

/-- Whether an event is a completed sink write. -/
def PumpEvent.isWrite : PumpEvent → Bool
  | PumpEvent.wrote _ _ => true
  | _ => false

/-- How one iteration of the `while` loop ends: either it runs to completion
(returning the value of the Python local `image_bytes`, which persists into
the next iteration), or an exception escapes the iteration.

This embeds the loop body as committed (lines 297-319), where the
`write_frame` statement sits at the indentation level of `try`, between the
try suite and the `except` clause — a position at which CPython refuses to
parse the file.  The closest executable reading is embedded: the
`try`/`except` protects the capture/normalise statements (lines 299-313) and
`write_frame` executes after the handler, unprotected.  Hence a capture
failure is caught and logged, but `write_frame` still runs with the previous
iteration's `image_bytes` (`NameError` when none exists yet), and a
`write_frame` failure escapes the loop. -/
def iterLiteral (src : Nat → Except String PILImage)
    (snk : Nat → List Nat → Except String Unit)
    (w h : Nat) (st : Rat) (i : Nat) (last : Option (List Nat)) :
    List PumpEvent × Except String (Option (List Nat)) :=
  match src i with
  | Except.error _ =>
      match last with
      | none =>
          ([PumpEvent.captureError i],
           Except.error "NameError: image_bytes is not defined")
      | some b =>
          match snk i b with
          | Except.error e => ([PumpEvent.captureError i], Except.error e)
          | Except.ok _ =>
              ([PumpEvent.captureError i, PumpEvent.wrote i b,
                PumpEvent.slept i st],
               Except.ok (some b))
  | Except.ok img =>
      let b := (normalize img w h).1
      match snk i b with
      | Except.error e => ([], Except.error e)
      | Except.ok _ =>
          ([PumpEvent.wrote i b, PumpEvent.slept i st], Except.ok (some b))

/-- How a pump run ends: the early return of line 292, a normal exit of the
`while` loop, an escaped exception, or exhaustion of the modelling fuel. -/
inductive Outcome where
  | returnedEarly
  | exited
  | crashed (msg : String)
  | fuelOut
deriving DecidableEq

/-- The `while not self.__app_quit` loop (lines 296-319).  `quit i` is the
value of `__app_quit` observed by the head check of iteration `i` (the flag
is read only there; the body never consults it).  `fuel` bounds how many
head checks are modelled. -/
def pumpLoop (src : Nat → Except String PILImage)
    (snk : Nat → List Nat → Except String Unit)
    (quit : Nat → Bool) (w h : Nat) (st : Rat) :
    Nat → Nat → Option (List Nat) → List PumpEvent × Outcome
  | 0, _, _ => ([], Outcome.fuelOut)
  | Nat.succ fuel, i, last =>
    if quit i then ([], Outcome.exited)
    else
      match iterLiteral src snk w h st i last with
      | (evs, Except.error e) => (evs, Outcome.crashed e)
      | (evs, Except.ok last2) =>
          let r := pumpLoop src snk quit w h st fuel (i + 1) last2
          (evs ++ r.1, r.2)

/-- `send_frames` (lines 287-319) after the gate wait: the `__app_error`
check of lines 290-292, the `sleep_time` computation of line 294, then the
pump loop. -/
def send_frames (app_error : Option String) (framerate : Int)
    (quit : Nat → Bool) (src : Nat → Except String PILImage)
    (snk : Nat → List Nat → Except String Unit)
    (w h fuel : Nat) : List PumpEvent × Outcome :=
  if app_error.isSome then ([], Outcome.returnedEarly)
  else
    match computeSleepTime framerate with
    | Except.error e => ([], Outcome.crashed e)
    | Except.ok st => pumpLoop src snk quit w h st fuel 0 none

/-- The event list of `k` consecutive completed all-success iterations
starting at index `i`: each writes the frame `B` and then sleeps `st`. -/
def expectedRun (B : List Nat) (st : Rat) (i : Nat) : Nat → List PumpEvent
  | 0 => []
  | Nat.succ n =>
      [PumpEvent.wrote i B, PumpEvent.slept i st] ++ expectedRun B st (i + 1) n

/-- A concrete 1x1 RGB image used to exercise the pump on tiny inputs. -/
def testImg : PILImage :=
  { width := 1
    height := 1
    mode := ImageMode.RGB
    px := fun _ _ => { r := 10, g := 20, b := 30, a := 255 }
    palette := fun _ => { r := 0, g := 0, b := 0, a := 255 } }

/-! ## Teardown (`leave`, lines 279-285) -/

/-- The five statements of `leave`, in source order: `self.__app_quit = True`
(line 280), `self.__thread.join()` (line 281), `self.__driver.quit()`
(line 283, guarded by `if self.__driver`), `self.__client.leave()`
(line 284), `self.__client.release()` (line 285). -/
inductive TeardownAction where
  | setQuit
  | joinThread
  | driverQuit
  | clientLeave
  | clientRelease
deriving DecidableEq

/-- Which teardown calls can raise in a given run: `driver.quit()`,
`client.leave()`, `client.release()`; and whether `self.__driver` is truthy
(the line-282 guard). -/
structure TeardownWorld where
  driver_present : Bool
  quit_fails : Bool
  leave_fails : Bool
  release_fails : Bool

/-- The statement list `leave` executes: each entry is an action paired with
whether that call raises in this world. -/
def teardownSteps (w : TeardownWorld) : List (TeardownAction × Bool) :=
  [(TeardownAction.setQuit, false), (TeardownAction.joinThread, false)] ++
    (if w.driver_present then [(TeardownAction.driverQuit, w.quit_fails)] else []) ++
    [(TeardownAction.clientLeave, w.leave_fails),
     (TeardownAction.clientRelease, w.release_fails)]

/-- Sequential execution of statements with no `try`/`except` around them
(`leave` has none): statements run in order, and the first one that raises
aborts the sequence, the exception propagating to the caller.  Returns the
actions attempted and, when one raised, which one. -/
def runSeq : List (TeardownAction × Bool) → List TeardownAction × Option TeardownAction
  | [] => ([], none)
  | (a, true) :: _ => ([a], some a)
  | (a, false) :: rest => (a :: (runSeq rest).1, (runSeq rest).2)

/-- `leave` (lines 279-285): the teardown sequence executed in world `w`. -/
def leave (w : TeardownWorld) : List TeardownAction × Option TeardownAction :=
  runSeq (teardownSteps w)

/-! ## Shared helper lemmas -/

theorem serializePixel_length (m : ImageMode) (p : Pixel) :
    (serializePixel m p).length = m.channels := by
  cases m <;> rfl

theorem serializeRow_length (m : ImageMode) (px : Nat → Nat → Pixel) (y w : Nat) :
    (serializeRow m px y w).length = w * m.channels := by
  induction w with
  | zero => simp [serializeRow]
  | succ n ih =>
      simp [serializeRow, List.length_append, ih, serializePixel_length,
        Nat.succ_mul]

theorem serializeRows_length (m : ImageMode) (px : Nat → Nat → Pixel) (w h : Nat) :
    (serializeRows m px w h).length = h * (w * m.channels) := by
  induction h with
  | zero => simp [serializeRows]
  | succ n ih =>
      simp [serializeRows, List.length_append, ih, serializeRow_length,
        Nat.succ_mul]

theorem tobytes_length (img : PILImage) :
    img.tobytes.length = img.height * (img.width * img.mode.channels) := by
  simp [PILImage.tobytes, serializeRows_length]

theorem convertRGB_mode (img : PILImage) : img.convertRGB.mode = ImageMode.RGB := by
  cases h : img.mode <;> simp [PILImage.convertRGB, h]

theorem convertRGB_width (img : PILImage) : img.convertRGB.width = img.width := by
  cases h : img.mode <;> simp [PILImage.convertRGB, h]

theorem convertRGB_height (img : PILImage) : img.convertRGB.height = img.height := by
  cases h : img.mode <;> simp [PILImage.convertRGB, h]

theorem normalizeImage_dims (img : PILImage) (w h : Nat) :
    (normalizeImage img w h).1.width = w ∧ (normalizeImage img w h).1.height = h ∧
      (normalizeImage img w h).1.mode = ImageMode.RGB := by
  by_cases hsz : (img.width, img.height) = (w, h)
  · have hw : img.width = w := congrArg Prod.fst hsz
    have hh : img.height = h := congrArg Prod.snd hsz
    by_cases hm : img.mode = ImageMode.RGB
    · simp [normalizeImage, hsz, hm, hw, hh]
    · simp [normalizeImage, hsz, hm, convertRGB_mode, convertRGB_width,
        convertRGB_height, hw, hh]
  · by_cases hm : img.mode = ImageMode.RGB
    · simp [normalizeImage, hsz, hm, PILImage.resize]
    · simp [normalizeImage, hsz, hm, convertRGB_mode, convertRGB_width,
        convertRGB_height, PILImage.resize]

theorem iterLiteral_slept (src : Nat → Except String PILImage)
    (snk : Nat → List Nat → Except String Unit) (w h : Nat) (st : Rat)
    (j : Nat) (last : Option (List Nat)) (i : Nat) (d : Rat)
    (hmem : PumpEvent.slept i d ∈ (iterLiteral src snk w h st j last).1) :
    d = st := by
  unfold iterLiteral at hmem
  cases hsrc : src j with
  | error e =>
      rw [hsrc] at hmem
      cases last with
      | none => simp at hmem
      | some b =>
          cases hsnk : snk j b with
          | error e2 => simp [hsnk] at hmem
          | ok u => simp [hsnk] at hmem; exact hmem.2
  | ok img =>
      rw [hsrc] at hmem
      cases hsnk : snk j ((normalize img w h).1) with
      | error e2 => simp [hsnk] at hmem
      | ok u => simp [hsnk] at hmem; exact hmem.2

theorem pumpLoop_slept (src : Nat → Except String PILImage)
    (snk : Nat → List Nat → Except String Unit) (quit : Nat → Bool)
    (w h : Nat) (st : Rat) (fuel : Nat) :
    ∀ (i0 : Nat) (last : Option (List Nat)) (i : Nat) (d : Rat),
      PumpEvent.slept i d ∈ (pumpLoop src snk quit w h st fuel i0 last).1 →
      d = st := by
  induction fuel with
  | zero =>
      intro i0 last i d hmem
      simp [pumpLoop] at hmem
  | succ n ih =>
      intro i0 last i d hmem
      unfold pumpLoop at hmem
      by_cases hq : quit i0
      · simp [hq] at hmem
      · simp only [hq, if_false, Bool.false_eq_true] at hmem
        cases hiter : iterLiteral src snk w h st i0 last with
        | mk evs res =>
            cases res with
            | error e =>
                rw [hiter] at hmem
                simp at hmem
                have := iterLiteral_slept src snk w h st i0 last i d
                rw [hiter] at this
                exact this hmem
            | ok last2 =>
                rw [hiter] at hmem
                simp [List.mem_append] at hmem
                rcases hmem with hmem | hmem
                · have := iterLiteral_slept src snk w h st i0 last i d
                  rw [hiter] at this
                  exact this hmem
                · exact ih (i0 + 1) last2 i d hmem

theorem pumpLoop_cooperative_stop (img : PILImage) (w h : Nat) (st : Rat)
    (k : Nat) :
    ∀ (fuel i : Nat) (last : Option (List Nat)), i ≤ k → k < i + fuel →
      pumpLoop (fun _ => Except.ok img) (fun _ _ => Except.ok ())
          (fun j => decide (k ≤ j)) w h st fuel i last =
        (expectedRun ((normalize img w h).1) st i (k - i), Outcome.exited) := by
  intro fuel
  induction fuel with
  | zero =>
      intro i last hik hki
      omega
  | succ n ih =>
      intro i last hik hki
      by_cases hq : i = k
      · subst hq
        simp [pumpLoop, Nat.sub_self, expectedRun]
      · have hlt : i < k := lt_of_le_of_ne hik hq
        have hqd : decide (k ≤ i) = false := by
          simp [Nat.not_le.mpr hlt]
        have hsub : k - i = (k - (i + 1)) + 1 := by omega
        unfold pumpLoop
        rw [hqd]
        simp only [Bool.false_eq_true, if_false]
        have hiter : iterLiteral (fun _ => Except.ok img)
            (fun _ _ => Except.ok ()) w h st i last =
            ([PumpEvent.wrote i ((normalize img w h).1),
              PumpEvent.slept i st],
             Except.ok (some ((normalize img w h).1))) := by
          simp [iterLiteral]
        rw [hiter]
        dsimp only
        rw [ih (i + 1) (some ((normalize img w h).1)) (by omega) (by omega)]
        rw [hsub]
        simp [expectedRun]

/-! ## Claim theorems -/

/-- C1 (counterexample): with framerate 10 (interval 1/10) the pump's only
sleep after a completed iteration lasts 1/10, and the code's sleep duration
at an iteration whose capture+normalize+write took 3/20 (150 ms) is still
1/10, whereas the claimed formula max(0, interval - elapsed) prescribes 0;
1/10 is not 0, so the claimed sleep duration is wrong on the code. -/
theorem fixed_sleep_counterexample :
    (pumpLoop (fun _ => Except.ok testImg) (fun _ _ => Except.ok ())
        (fun i => decide (1 ≤ i)) 1 1 (1 / 10) 3 0 none).1 =
      [PumpEvent.wrote 0 [10, 20, 30], PumpEvent.slept 0 (1 / 10)] ∧
    codeSleepDuration (1 / 10) (3 / 20) = 1 / 10 ∧
    specSleepDuration (1 / 10) (3 / 20) = 0 ∧
    ((1 : Rat) / 10) ≠ 0 := by
  refine ⟨rfl, by norm_num [codeSleepDuration], ?_, by norm_num⟩
  simp [specSleepDuration]
  norm_num

/-- C1 (amended): the sleep at the end of every pump iteration lasts exactly
the fixed interval 1/framerate, regardless of how long capture, normalize
and write took — the code never measures elapsed time, so a slow iteration
is followed by a further full-interval sleep, not by an immediate start. -/
theorem fixed_sleep_amended :
    (∀ interval elapsed : Rat, codeSleepDuration interval elapsed = interval) ∧
    ∀ (src : Nat → Except String PILImage)
      (snk : Nat → List Nat → Except String Unit)
      (quit : Nat → Bool) (w h : Nat) (st : Rat) (fuel i0 : Nat)
      (last : Option (List Nat)) (i : Nat) (d : Rat),
      PumpEvent.slept i d ∈ (pumpLoop src snk quit w h st fuel i0 last).1 →
      d = st :=
  ⟨fun _ _ => rfl,
   fun src snk quit w h st fuel i0 last i d hmem =>
     pumpLoop_slept src snk quit w h st fuel i0 last i d hmem⟩

/-- Witness for C1: in a concrete one-iteration run with interval 1/10, the
recorded sleep has duration 1/10. -/
theorem fixed_sleep_amended_witness :
    (1 : Rat) / 10 = 1 / 10 ∧ codeSleepDuration 1 (1 / 2) = 1 := by
  constructor
  · exact fixed_sleep_amended.2 (fun _ => Except.ok testImg)
      (fun _ _ => Except.ok ()) (fun i => decide (1 ≤ i)) 1 1 (1 / 10) 3 0
      none 0 (1 / 10) (by
        rw [show (pumpLoop (fun _ => Except.ok testImg)
            (fun _ _ => Except.ok ()) (fun i => decide (1 ≤ i)) 1 1 (1 / 10)
            3 0 none).1 =
          [PumpEvent.wrote 0 [10, 20, 30], PumpEvent.slept 0 (1 / 10)]
          from rfl]
        exact List.mem_cons_of_mem _ (List.mem_cons_self _ _))
  · exact fixed_sleep_amended.1 1 (1 / 2)

/-- C2 (code evaluated at the failing input): with a sink whose
`write_frame` raises on the first frame, the pump run ends with the escaped
exception after zero completed iterations — the write failure is not caught
inside the loop, because the `write_frame` statement sits outside the
`try`/`except` protection (at an indentation that CPython rejects as a
SyntaxError), contradicting the claim that a sink failure is logged and the
loop continues. -/
theorem sink_failure_escapes_loop :
    send_frames none 10 (fun _ => false) (fun _ => Except.ok testImg)
        (fun _ _ => Except.error "write_frame failed") 1 1 5 =
      ([], Outcome.crashed "write_frame failed") := by decide

/-- C3 (counterexample): in a teardown where the driver handle is present
and `driver.quit()` raises, `leave` performs only `setQuit`, `joinThread`
and the failing `driverQuit`: the exception propagates (the result carries
the raising action) and neither `client.leave()` nor `client.release()` is
ever called, contradicting the claim that release errors are logged, not
propagated, and that the remaining release calls still happen. -/
theorem leave_release_error_counterexample :
    leave ⟨true, true, false, false⟩ =
      ([TeardownAction.setQuit, TeardownAction.joinThread,
        TeardownAction.driverQuit], some TeardownAction.driverQuit) ∧
    TeardownAction.clientLeave ∉ (leave ⟨true, true, false, false⟩).1 ∧
    TeardownAction.clientRelease ∉ (leave ⟨true, true, false, false⟩).1 := by
  decide

/-- C3 (amended): the shutdown path sets the run flag and joins the pump
thread first, then calls `driver.quit()` (when the driver handle is
truthy), `client.leave()` and `client.release()` in order with no error
handling: whichever release call raises first, its error propagates out of
`leave` and the remaining release calls are skipped — a raising
`driver.quit()` skips `client.leave()` and `client.release()`, a raising
`client.leave()` skips `client.release()`, and a raising
`client.release()` propagates as well; teardown finishes without an
escaped error exactly when none of the executed release calls raises, and
only then are both `client.leave()` and `client.release()` performed. -/
theorem leave_amended :
    ∀ dp qf lf rf : Bool,
      (leave ⟨dp, qf, lf, rf⟩).1.take 2 =
        [TeardownAction.setQuit, TeardownAction.joinThread] ∧
      (dp = true → qf = true →
        (leave ⟨dp, qf, lf, rf⟩).2 = some TeardownAction.driverQuit ∧
        TeardownAction.clientLeave ∉ (leave ⟨dp, qf, lf, rf⟩).1 ∧
        TeardownAction.clientRelease ∉ (leave ⟨dp, qf, lf, rf⟩).1) ∧
      ((dp && qf) = false → lf = true →
        (leave ⟨dp, qf, lf, rf⟩).2 = some TeardownAction.clientLeave ∧
        TeardownAction.clientRelease ∉ (leave ⟨dp, qf, lf, rf⟩).1) ∧
      ((dp && qf) = false → lf = false → rf = true →
        (leave ⟨dp, qf, lf, rf⟩).2 = some TeardownAction.clientRelease) ∧
      ((leave ⟨dp, qf, lf, rf⟩).2 = none ↔
        (dp && qf) = false ∧ lf = false ∧ rf = false) ∧
      ((leave ⟨dp, qf, lf, rf⟩).2 = none →
        TeardownAction.clientLeave ∈ (leave ⟨dp, qf, lf, rf⟩).1 ∧
        TeardownAction.clientRelease ∈ (leave ⟨dp, qf, lf, rf⟩).1) := by
  intro dp qf lf rf
  cases dp <;> cases qf <;> cases lf <;> cases rf <;>
    simp [leave, teardownSteps, runSeq]

/-- Witness for C3: a failing `driver.quit()` propagates and skips both
client calls, a failing `client.leave()` propagates and skips
`client.release()`, a failing `client.release()` propagates, and a
failure-free teardown finishes with no escaped error. -/
theorem leave_amended_witness :
    (leave ⟨true, true, false, false⟩).2 = some TeardownAction.driverQuit ∧
    TeardownAction.clientLeave ∉ (leave ⟨true, true, false, false⟩).1 ∧
    (leave ⟨true, false, true, false⟩).2 = some TeardownAction.clientLeave ∧
    TeardownAction.clientRelease ∉ (leave ⟨true, false, true, false⟩).1 ∧
    (leave ⟨false, false, false, true⟩).2 = some TeardownAction.clientRelease ∧
    (leave ⟨true, false, false, false⟩).2 = none :=
  ⟨((leave_amended true true false false).2.1 rfl rfl).1,
   ((leave_amended true true false false).2.1 rfl rfl).2.1,
   ((leave_amended true false true false).2.2.1 rfl rfl).1,
   ((leave_amended true false true false).2.2.1 rfl rfl).2,
   (leave_amended false false false true).2.2.2.1 rfl rfl rfl,
   ((leave_amended true false false false).2.2.2.2.1).mpr ⟨rfl, rfl, rfl⟩⟩

/-- C4: whenever `__app_error` is set when the pump body runs, `send_frames`
returns immediately with no iterations, so no event is produced and in
particular the sink write is called zero times. -/
theorem failed_session_no_writes (e : String) (framerate : Int)
    (quit : Nat → Bool) (src : Nat → Except String PILImage)
    (snk : Nat → List Nat → Except String Unit) (w h fuel : Nat) :
    send_frames (some e) framerate quit src snk w h fuel =
      ([], Outcome.returnedEarly) ∧
    ((send_frames (some e) framerate quit src snk w h fuel).1.filter
        PumpEvent.isWrite) = [] := by
  constructor <;> rfl

/-- C5: the session gate stores its state: `await_ready` called after
`on_joined` delivered outcome `error` (either success `none` or failure
`some e`) returns immediately with exactly that outcome, while `await_ready`
called on the initial state (before any signal) blocks. -/
theorem gate_stores_state (error : Option String) :
    await_ready (on_joined error initAppState) = some error ∧
    await_ready initAppState = none := by
  cases error <;> simp [await_ready, on_joined, initAppState]

/-- C6: for every decoded capture of any dimensions and colour mode and
every target (w, h), the normalised buffer has exactly w*h*3 bytes, the
final image is 3-channel RGB (no alpha), and the LANCZOS resize is
performed exactly when the native dimensions differ from the target. -/
theorem normalize_contract (img : PILImage) (w h : Nat) :
    (normalize img w h).1.length = w * h * 3 ∧
    (normalizeImage img w h).1.mode = ImageMode.RGB ∧
    (NormEvent.resized Resampling.LANCZOS ∈ (normalize img w h).2 ↔
      ¬(img.width = w ∧ img.height = h)) := by
  obtain ⟨hw, hh, hm⟩ := normalizeImage_dims img w h
  refine ⟨?_, hm, ?_⟩
  · show (normalizeImage img w h).1.tobytes.length = w * h * 3
    rw [tobytes_length, hw, hh, hm]
    simp only [ImageMode.channels]
    ring
  · show NormEvent.resized Resampling.LANCZOS ∈ (normalizeImage img w h).2 ↔ _
    by_cases hsz : (img.width, img.height) = (w, h)
    · have hw' : img.width = w := congrArg Prod.fst hsz
      have hh' : img.height = h := congrArg Prod.snd hsz
      by_cases hmm : img.mode = ImageMode.RGB <;>
        simp [normalizeImage, hsz, hmm, hw', hh']
    · have hne : ¬(img.width = w ∧ img.height = h) := by
        intro hc
        exact hsz (by rw [hc.1, hc.2])
      by_cases hmm : img.mode = ImageMode.RGB <;>
        simp [normalizeImage, hsz, hmm, hne, PILImage.resize]

/-- A concrete 1280x960 RGBA capture, used as the C6 scenario input. -/
def bigImg : PILImage :=
  { width := 1280
    height := 960
    mode := ImageMode.RGBA
    px := fun _ _ => { r := 1, g := 2, b := 3, a := 4 }
    palette := fun _ => { r := 0, g := 0, b := 0, a := 255 } }

/-- Witness for C6: normalising a 1280x960 RGBA capture to 640x480 yields a
buffer of exactly 640*480*3 = 921600 bytes in RGB mode. -/
theorem normalize_contract_witness :
    (normalize bigImg 640 480).1.length = 640 * 480 * 3 ∧
    (normalizeImage bigImg 640 480).1.mode = ImageMode.RGB ∧
    640 * 480 * 3 = 921600 :=
  ⟨(normalize_contract bigImg 640 480).1,
   (normalize_contract bigImg 640 480).2.1, by norm_num⟩

/-- A source that fails on every 3rd call (calls 3, 6, ... in 1-based
counting, i.e. iteration indices 2, 5, ...). -/
def every3Src : Nat → Except String PILImage :=
  fun i =>
    if (i + 1) % 3 = 0 then Except.error "screenshot failed"
    else Except.ok testImg

/-- Six iterations of the pump against `every3Src`, then the quit flag. -/
def every3Run : List PumpEvent × Outcome :=
  send_frames none 10 (fun i => decide (6 ≤ i)) every3Src
    (fun _ _ => Except.ok ()) 1 1 10

/-- C7 (code evaluated at the failing input): against a source failing every
3rd call the pump performs a write on iteration 2 as well — the 3rd call,
whose capture failed, still reaches `write_frame` with the stale bytes of
the previous iteration, so writes happen on all 6 iterations, not only on
those not divisible by 3; and when the very first capture fails the loop
crashes with a NameError, because `write_frame` sits outside the
`try`/`except` protection (the file is in fact a CPython SyntaxError),
contradicting the claimed skip-and-continue behaviour. -/
theorem capture_failure_stale_write :
    PumpEvent.wrote 2 [10, 20, 30] ∈ every3Run.1 ∧
    PumpEvent.captureError 2 ∈ every3Run.1 ∧
    (every3Run.1.filter PumpEvent.isWrite).length = 6 ∧
    every3Run.2 = Outcome.exited ∧
    send_frames none 10 (fun _ => false) (fun _ => Except.error "screenshot failed")
        (fun _ _ => Except.ok ()) 1 1 5 =
      ([PumpEvent.captureError 0],
       Outcome.crashed "NameError: image_bytes is not defined") := by
  refine ⟨by decide, by decide, by rfl, by rfl, by decide⟩

/-- C8: stopping is cooperative and blocking: the quit flag is consulted
only at iteration heads, so when the flag becomes set at head check k every
iteration before k runs to completion through its write and its sleep, no
iteration after it starts, and the loop returns (unblocking the join in
`leave`) exactly after iteration k-1 has fully finished. -/
theorem stop_cooperative (img : PILImage) (w h : Nat) (st : Rat)
    (k fuel : Nat) (hk : k < fuel) :
    pumpLoop (fun _ => Except.ok img) (fun _ _ => Except.ok ())
        (fun j => decide (k ≤ j)) w h st fuel 0 none =
      (expectedRun ((normalize img w h).1) st 0 k, Outcome.exited) := by
  have h0 := pumpLoop_cooperative_stop img w h st k fuel 0 none
    (Nat.zero_le k) (by omega)
  simpa using h0

/-- Witness for C8: with the quit flag first observed at head check 1 the
loop performs exactly one full iteration (write then sleep) and exits. -/
theorem stop_cooperative_witness :
    1 < 3 ∧
    pumpLoop (fun _ => Except.ok testImg) (fun _ _ => Except.ok ())
        (fun j => decide (1 ≤ j)) 1 1 1 3 0 none =
      (expectedRun ((normalize testImg 1 1).1) 1 0 1, Outcome.exited) :=
  ⟨by decide, stop_cooperative testImg 1 1 1 1 3 (by decide)⟩

/-- C9: the `sleep_time = 1.0 / framerate` computation has no guard: every
strictly positive framerate yields a positive interval, while framerate 0
hits the division-by-zero branch, which is reached before the first
iteration so the whole run produces no events. -/
theorem sleep_time_guard :
    (∀ f : Int, 0 < f →
      computeSleepTime f = Except.ok (1 / (f : Rat)) ∧ 0 < 1 / (f : Rat)) ∧
    computeSleepTime 0 =
      Except.error "ZeroDivisionError: float division by zero" ∧
    ∀ (quit : Nat → Bool) (src : Nat → Except String PILImage)
      (snk : Nat → List Nat → Except String Unit) (w h fuel : Nat),
      send_frames none 0 quit src snk w h fuel =
        ([], Outcome.crashed "ZeroDivisionError: float division by zero") := by
  refine ⟨?_, rfl, ?_⟩
  · intro f hf
    have hne : ¬ f = 0 := by omega
    refine ⟨by simp [computeSleepTime, hne], ?_⟩
    have hpos : (0 : Rat) < (f : Rat) := by exact_mod_cast hf
    exact one_div_pos.mpr hpos
  · intro quit src snk w h fuel
    rfl

/-- Witness for C9: framerate 30 is positive and yields the positive
interval 1/30. -/
theorem sleep_time_guard_witness :
    (0 : Int) < 30 ∧
    (computeSleepTime 30 = Except.ok (1 / ((30 : Int) : Rat)) ∧
      0 < 1 / ((30 : Int) : Rat)) :=
  ⟨by decide, sleep_time_guard.1 30 (by decide)⟩

/-- C10: in the primitive-operation trace of `on_joined`, the store of the
failure value precedes the event set: executing the full trace agrees with
`on_joined`, and any trace prefix in which the event has been set already
holds the final session outcome in `__app_error`, so a worker waking from
the gate never observes a value that is later overwritten. -/
theorem store_before_set (error : Option String) :
    runOps (on_joined_ops error) initAppState = on_joined error initAppState ∧
    ∀ k : Nat, JoinOp.setEvent ∈ (on_joined_ops error).take k →
      (runOps ((on_joined_ops error).take k) initAppState).app_error =
        (on_joined error initAppState).app_error ∧
      (runOps ((on_joined_ops error).take k) initAppState).start_event_set =
        true := by
  cases error with
  | none =>
      refine ⟨rfl, ?_⟩
      intro k hm
      match k with
      | 0 => simp [on_joined_ops] at hm
      | Nat.succ n =>
          constructor <;>
            simp [on_joined_ops, runOps, applyOp, on_joined, initAppState]
  | some e =>
      refine ⟨rfl, ?_⟩
      intro k hm
      match k with
      | 0 => simp [on_joined_ops] at hm
      | 1 => simp [on_joined_ops] at hm
      | Nat.succ (Nat.succ n) =>
          constructor <;>
            simp [on_joined_ops, runOps, applyOp, on_joined, initAppState]

/-- Witness for C10: for a concrete failed join, the prefix of length 2 of
the operation trace has the event set and already carries the final error. -/
theorem store_before_set_witness :
    JoinOp.setEvent ∈ (on_joined_ops (some "join failed")).take 2 ∧
    (runOps ((on_joined_ops (some "join failed")).take 2)
        initAppState).app_error =
      (on_joined (some "join failed") initAppState).app_error :=
  ⟨by decide, ((store_before_set (some "join failed")).2 2 (by decide)).1⟩

end Videotest
